import Mathlib

/-!
Verification of the nestadia bus / clock-orchestrator core.

Shallow embedding of src/nestadia/src/bus.rs and src/nestadia/src/lib.rs.
Machine integers are modelled as Nat with explicit masking (x &&& m) and
explicit mod 256 where u8 overflow matters; a u16 subtraction that would
underflow (a panic in the Rust) is modelled by returning none.

The CPU, PPU and cartridge internals (cpu.rs, ppu.rs, cartridge.rs) are not
part of the core under verification; per the spec they are external
collaborators consumed through narrow contracts, and they are modelled here
as abstract state types with pure step functions supplied as parameters.
-/

/-! ## Controller ports (bus.rs, CpuBus controller operations, lines 91-119)

One controller port owns three fields of the emulator: the live
button-state byte (controller1 / controller2 of lib.rs), the strobe flag
(controller1_state / controller2_state) and the shift-out snapshot byte
(controller1_snapshot / controller2_snapshot). The port-1 and port-2
operations of bus.rs are verbatim duplicates of each other on these three
fields, so they are embedded once over this record. -/

structure Controller where
  live : Nat
  strobe : Bool
  snapshot : Nat

/-- Embeds CpuBus::controller1_write / controller2_write (bus.rs 91-94,
106-109): bit 0 of data becomes the strobe flag and the snapshot is
recaptured from the live byte. -/
def controller_write (c : Controller) (data : Nat) : Controller :=
  { c with strobe := data &&& 0x01 == 0x01, snapshot := c.live }

/-- Embeds CpuBus::read_controller1_snapshot / read_controller2_snapshot
(bus.rs 96-104, 111-119). Note the strobe branch of the Rust reads
controller1 & 0x80 >> 7, and Rust shifts bind tighter than &, so it is
live &&& (0x80 >>> 7), i.e. live &&& 1; the strobe-clear branch is
parenthesized in the source as (snapshot & 0x80) >> 7. The u8 shift
snapshot <<= 1 is the shift followed by truncation mod 256. -/
def read_controller_snapshot (c : Controller) : Nat × Controller :=
  if c.strobe then
    (c.live &&& (0x80 >>> 7), c)
  else
    let data := (c.snapshot &&& 0x80) >>> 7
    (data, { c with snapshot := (c.snapshot <<< 1) % 256 })

/-- Embeds Emulator::set_controller1 / set_controller2 (lib.rs 99-105):
replaces the live button-state byte of the port. -/
def set_controller (c : Controller) (v : Nat) : Controller :=
  { c with live := v }

/-- The port state after one snapshot read (the read's side effect). -/
def ctrlStep (c : Controller) : Controller :=
  (read_controller_snapshot c).2

/-- Value returned by the n-th snapshot read (0-indexed) in a sequence of
consecutive reads starting from port state c. -/
def nthRead (c : Controller) (n : Nat) : Nat :=
  (read_controller_snapshot (ctrlStep^[n] c)).1

/-! ## Work RAM (bus.rs, CpuBus::write_ram / read_ram, lines 72-78) -/

/-- RAM_SIZE of lib.rs line 19. -/
def RAM_SIZE : Nat := 0x0800

/-- Embeds CpuBus::write_ram (bus.rs 72-74); the 2048-byte array is
modelled as a map from indices to bytes. -/
def write_ram (ram : Nat → Nat) (addr data : Nat) : Nat → Nat :=
  fun i => if i = addr &&& (RAM_SIZE - 1) then data else ram i

/-- Embeds CpuBus::read_ram (bus.rs 76-78). -/
def read_ram (ram : Nat → Nat) (addr : Nat) : Nat :=
  ram (addr &&& (RAM_SIZE - 1))

/-! ## Nametable mirroring (bus.rs, PpuBus, lines 148-208)

The five mirroring modes are owned by the cartridge (cartridge.rs, outside
the verified core); the spec fixes them as a closed set. -/

/-- Modelled from the spec: the Mirroring enumeration of cartridge.rs (not
among the core sources); section 3 of the spec fixes it as the closed set of
five variants Horizontal, Vertical, FourScreen, OneScreenLower,
OneScreenUpper. -/
inductive Mirroring where
  | Horizontal
  | Vertical
  | FourScreen
  | OneScreenLower
  | OneScreenUpper

/-- Embeds PpuBus::mirror_name_tables_addr (bus.rs 171-203). The u16
subtraction mirrored - 0x2000 underflows when addr &&& 0x2FFF < 0x2000 (a
panic in the Rust), and the source's unreachable arms are panics as well;
both are modelled as none. All other paths return some index. -/
def mirror_name_tables_addr (m : Mirroring) (addr : Nat) : Option Nat :=
  let mirrored := addr &&& 0x2FFF
  if mirrored < 0x2000 then none
  else
    let idx := mirrored - 0x2000
    match m with
    | .Horizontal =>
        if idx ≤ 1023 then some idx
        else if idx ≤ 2047 then some (idx - 1024)
        else if idx ≤ 3071 then some (idx - 1024)
        else if idx ≤ 4095 then some (idx - 2048)
        else none
    | .Vertical =>
        if idx ≤ 2047 then some idx
        else if idx ≤ 4095 then some (idx - 2048)
        else none
    | .FourScreen => some idx
    | .OneScreenLower =>
        if idx ≤ 1023 then some idx
        else if idx ≤ 2047 then some (idx - 1024)
        else if idx ≤ 3071 then some (idx - 2048)
        else if idx ≤ 4095 then some (idx - 3072)
        else none
    | .OneScreenUpper =>
        if idx ≤ 1023 then some (idx + 1024)
        else if idx ≤ 2047 then some idx
        else if idx ≤ 3071 then some (idx - 1024)
        else if idx ≤ 4095 then some (idx - 2048)
        else none

/-- The quadrant-to-physical-bank table of spec section 4.2, written from
the spec's words (the spec-side definition, to be compared against the
source-level translation above). -/
def quadrant_bank (m : Mirroring) (q : Nat) : Nat :=
  match m, q with
  | .Horizontal, 0 => 0
  | .Horizontal, 1 => 0
  | .Horizontal, 2 => 1
  | .Horizontal, 3 => 1
  | .Vertical, 0 => 0
  | .Vertical, 1 => 1
  | .Vertical, 2 => 0
  | .Vertical, 3 => 1
  | .FourScreen, q => q
  | .OneScreenLower, _ => 0
  | .OneScreenUpper, _ => 1
  | _, _ => 0

set_option maxRecDepth 8000 in
/-- Bitwise fold of an in-window address, settled by exhaustive evaluation
over the 8192 addresses 0x2000 + q * 1024 + r. -/
theorem land_fold_chunk : ∀ q : Nat, q < 8 → ∀ r : Nat, r < 1024 →
    ((0x2000 + (q * 1024 + r)) &&& 0x2FFF) = 0x2000 + (q * 1024 + r) % 4096 := by
  decide

/-- For offsets a below 8192, masking 0x2000 + a with 0x2FFF keeps the
0x2000 base and reduces the offset mod 4096. -/
theorem land_fold (a : Nat) (ha : a < 8192) :
    ((0x2000 + a) &&& 0x2FFF) = 0x2000 + a % 4096 := by
  have key : a = a / 1024 * 1024 + a % 1024 := by omega
  rw [key]
  exact land_fold_chunk (a / 1024) (by omega) (a % 1024) (by omega)

/-- The mirroring translation at base 0x2000 plus an offset below 8192
realizes the quadrant-to-bank table with the within-quadrant offset kept. -/
theorem mirror_bank_of_offset (m : Mirroring) (a : Nat) (ha : a < 8192) :
    mirror_name_tables_addr m (0x2000 + a) =
      some (quadrant_bank m (a / 1024 % 4) * 1024 + a % 1024) := by
  have hf := land_fold a ha
  have hclt : ¬ (0x2000 + a % 4096 < 0x2000) := by omega
  have hq : a / 1024 % 4 = 0 ∨ a / 1024 % 4 = 1 ∨ a / 1024 % 4 = 2 ∨ a / 1024 % 4 = 3 := by
    omega
  cases m <;> rcases hq with h | h | h | h <;>
    simp only [mirror_name_tables_addr, hf, Nat.add_sub_cancel_left, hclt, if_false,
      ite_false, h, quadrant_bank] <;>
    (try split_ifs) <;>
    first
      | (simp only [Option.some.injEq]; omega)
      | (exfalso; omega)

/-- C1: for every address in 0x2000..=0x3FFF and every mirroring mode, the
translation maps the address's quadrant (taken mod 4, as the upper half
0x3000..0x3FFF folds onto the window) to the physical bank given by the
mode's table, at physical offset bank * 1024 plus the preserved
within-quadrant offset (addr - 0x2000) mod 1024. -/
theorem mirroring_bank_table (m : Mirroring) (addr : Nat)
    (h1 : 0x2000 ≤ addr) (h2 : addr ≤ 0x3FFF) :
    mirror_name_tables_addr m addr =
      some (quadrant_bank m ((addr - 0x2000) / 1024 % 4) * 1024 + (addr - 0x2000) % 1024) := by
  have h := mirror_bank_of_offset m (addr - 0x2000) (by omega)
  have e : 0x2000 + (addr - 0x2000) = addr := by omega
  rw [e] at h
  exact h

/-- Witness for C1: mode Horizontal at address 0x2C41 (quadrant 3, offset
0x41) lands in bank 1 at physical index 1024 + 0x41. -/
theorem mirroring_bank_table_witness :
    mirror_name_tables_addr Mirroring.Horizontal 0x2C41 =
      some (quadrant_bank Mirroring.Horizontal ((0x2C41 - 0x2000) / 1024 % 4) * 1024
        + (0x2C41 - 0x2000) % 1024) :=
  mirroring_bank_table Mirroring.Horizontal 0x2C41 (by decide) (by decide)

/-- C4 counterexample: at the 16-bit address 0x1234 the fold lands below
0x2000, the u16 subtraction underflows and the translation faults (none)
instead of producing an index in 0..4095, refuting the claim for arbitrary
16-bit input. -/
theorem mirroring_fold_counterexample :
    mirror_name_tables_addr Mirroring.FourScreen 0x1234 = none := rfl

/-- C4 (amended): for every 16-bit address whose fold addr &&& 0x2FFF lands
at or above 0x2000 (in particular every address in 0x2000..=0x3FFF), the
translation is well-defined: no underflow, and the produced index into the
4096-byte video RAM is in bounds for every mirroring mode. -/
theorem mirroring_fold_inbounds (m : Mirroring) (addr : Nat)
    (haddr : addr < 65536) (h : 0x2000 ≤ addr &&& 0x2FFF) :
    ∃ i, mirror_name_tables_addr m addr = some i ∧ i < 4096 := by
  have hub : addr &&& 0x2FFF ≤ 0x2FFF := Nat.and_le_right
  simp only [mirror_name_tables_addr]
  rw [if_neg (by omega)]
  cases m <;> (try split_ifs) <;>
    first
      | exact ⟨_, rfl, by omega⟩
      | (exfalso; omega)

/-- Witness for C4: mode Vertical at address 0x3EA1 translates to an
in-bounds index. -/
theorem mirroring_fold_inbounds_witness :
    ∃ i, mirror_name_tables_addr Mirroring.Vertical 0x3EA1 = some i ∧ i < 4096 :=
  mirroring_fold_inbounds Mirroring.Vertical 0x3EA1 (by decide) (by decide)

/-! ## Controller theorems -/

/-- C3: evaluation of the code at the failing input. With the strobe flag
set and live button byte 0x80 (bit 7 set, bit 0 clear), the snapshot read
returns 0, not bit 7 of the live byte (1): in the source the strobe branch
reads controller1 & 0x80 >> 7, which Rust parses as controller1 & (0x80 >>
7) = controller1 & 1, i.e. bit 0 of the live byte, while the spec (and the
parenthesized strobe-clear branch next to it) call for bit 7. -/
theorem controller_poll_bit0_eval :
    (read_controller_snapshot { live := 0x80, strobe := true, snapshot := 0 }).1 = 0 := by
  decide

/-- With the strobe flag clear, n snapshot reads shift the snapshot left n
times mod 256 and touch nothing else. -/
theorem ctrlStep_iterate (live sn : Nat) (hsn : sn < 256) :
    ∀ n : Nat, ctrlStep^[n] { live := live, strobe := false, snapshot := sn } =
      { live := live, strobe := false, snapshot := (sn <<< n) % 256 } := by
  intro n
  induction n with
  | zero => simp [Nat.shiftLeft_eq]; omega
  | succ k ih =>
      rw [Function.iterate_succ_apply', ih]
      simp only [ctrlStep, read_controller_snapshot, Bool.false_eq_true, if_false]
      have h1 : ∀ x : Nat, x <<< 1 = x * 2 := by
        intro x; rw [Nat.shiftLeft_eq, pow_one]
      have h2 : sn <<< (k + 1) = (sn <<< k) * 2 := by
        rw [Nat.shiftLeft_eq, Nat.shiftLeft_eq, pow_succ, Nat.mul_assoc]
      rw [h1, h2]
      have h3 : (sn <<< k) % 256 * 2 % 256 = (sn <<< k) * 2 % 256 := by omega
      simp [h3]

/-- The n-th consecutive snapshot read of a strobe-clear port extracts bit
7 of the snapshot shifted left n times. -/
theorem nthRead_strobe_clear (live sn n : Nat) (hsn : sn < 256) :
    nthRead { live := live, strobe := false, snapshot := sn } n =
      (((sn <<< n) % 256) &&& 0x80) >>> 7 := by
  unfold nthRead
  rw [ctrlStep_iterate live sn hsn]
  simp [read_controller_snapshot]

set_option maxRecDepth 4000 in
/-- For a byte-valued snapshot and a read index below 8, bit 7 of the
shifted snapshot is the (7 - n)-th bit of the original byte. -/
theorem shift_window : ∀ b : Nat, b < 256 → ∀ n : Nat, n < 8 →
    (((b <<< n) % 256) &&& 0x80) >>> 7 = (b >>> (7 - n)) &&& 1 := by
  decide

/-- After eight or more left shifts a byte-valued snapshot is all zeros. -/
theorem shift_dead (b n : Nat) (hn : 8 ≤ n) : (b <<< n) % 256 = 0 := by
  obtain ⟨k, hk⟩ : (256 : Nat) ∣ 2 ^ n := by
    have h := pow_dvd_pow 2 hn
    simpa using h
  rw [Nat.shiftLeft_eq, hk, show b * (256 * k) = 256 * (b * k) by ring]
  exact Nat.mul_mod_right 256 (b * k)

/-- C6: for every byte b, after a controller write with bit 0 clear while
the live byte is b (which captures the snapshot from b), the next 8
snapshot reads return bits 7, 6, ..., 0 of b most-significant-first, and
the 9th and all subsequent reads return 0. -/
theorem controller_shiftout (b d : Nat) (c : Controller) (hb : b < 256)
    (hd : d &&& 0x01 = 0) (hlive : c.live = b) :
    (∀ i : Nat, i < 8 → nthRead (controller_write c d) i = (b >>> (7 - i)) &&& 1)
    ∧ (∀ j : Nat, 8 ≤ j → nthRead (controller_write c d) j = 0) := by
  have hw : controller_write c d = { live := c.live, strobe := false, snapshot := b } := by
    simp [controller_write, hd, hlive]
  rw [hw]
  constructor
  · intro i hi
    rw [nthRead_strobe_clear c.live b i hb]
    exact shift_window b hb i hi
  · intro j hj
    rw [nthRead_strobe_clear c.live b j hb, shift_dead b j hj]
    decide

/-- Witness for C6: live byte 0xB2 strobed low with snapshot and strobe in
arbitrary prior states; the first read yields bit 7 and the 9th yields 0. -/
theorem controller_shiftout_witness :
    nthRead (controller_write { live := 0xB2, strobe := true, snapshot := 0x55 } 0x00) 0
        = (0xB2 >>> 7) &&& 1
    ∧ nthRead (controller_write { live := 0xB2, strobe := true, snapshot := 0x55 } 0x00) 8 = 0 :=
  ⟨(controller_shiftout 0xB2 0x00 { live := 0xB2, strobe := true, snapshot := 0x55 }
      (by decide) (by decide) rfl).1 0 (by decide),
   (controller_shiftout 0xB2 0x00 { live := 0xB2, strobe := true, snapshot := 0x55 }
      (by decide) (by decide) rfl).2 8 (by decide)⟩

/-- C7 counterexample: from a freshly constructed port (live 0, strobe
clear, snapshot 0), performing the claim's sequence in the claim's order --
first the strobe-low write 0x00, then setting the live byte to 0b1011_0010
-- the write captures the snapshot from the old live byte 0, so the first
read returns 0, not the claimed leading bit 1 of 0b1011_0010. -/
theorem controller_shiftout_order_counterexample :
    ¬ (nthRead (set_controller (controller_write { live := 0, strobe := false, snapshot := 0 }
        0x00) 0xB2) 0 = 1) := by
  decide

/-- C7 (amended): for every starting state of a controller port, after
first setting the port's live input byte to 0b1011_0010 and then performing
a controller write with value 0x00 (the order matching the capture-on-write
semantics), the next 8 snapshot reads yield the bits 1,0,1,1,0,0,1,0 in
that order, and the 9th read yields 0. -/
theorem controller_shiftout_ordered (c : Controller) :
    nthRead (controller_write (set_controller c 0xB2) 0x00) 0 = 1
    ∧ nthRead (controller_write (set_controller c 0xB2) 0x00) 1 = 0
    ∧ nthRead (controller_write (set_controller c 0xB2) 0x00) 2 = 1
    ∧ nthRead (controller_write (set_controller c 0xB2) 0x00) 3 = 1
    ∧ nthRead (controller_write (set_controller c 0xB2) 0x00) 4 = 0
    ∧ nthRead (controller_write (set_controller c 0xB2) 0x00) 5 = 0
    ∧ nthRead (controller_write (set_controller c 0xB2) 0x00) 6 = 1
    ∧ nthRead (controller_write (set_controller c 0xB2) 0x00) 7 = 0
    ∧ nthRead (controller_write (set_controller c 0xB2) 0x00) 8 = 0 := by
  have h : controller_write (set_controller c 0xB2) 0x00 =
      { live := 0xB2, strobe := false, snapshot := 0xB2 } := rfl
  rw [h]
  decide

/-- Witness for C7: the amended sequence from the concrete starting state
live 0, strobe set, snapshot 0xFF. -/
theorem controller_shiftout_ordered_witness :
    nthRead (controller_write (set_controller { live := 0, strobe := true, snapshot := 0xFF }
        0xB2) 0x00) 0 = 1 :=
  (controller_shiftout_ordered { live := 0, strobe := true, snapshot := 0xFF }).1

/-! ## Work RAM mirroring theorem -/

/-- C8: writes and reads through any two 16-bit addresses that agree on the
low 11 bits hit the same work-RAM cell (effective index addr &&& 0x07FF),
reads observe writes, and the masked index is always inside the 2048-byte
array, so the operations never fault. -/
theorem ram_mirroring (ram : Nat → Nat) (a1 a2 d : Nat)
    (h1 : a1 < 65536) (h2 : a2 < 65536)
    (halias : a1 &&& 0x07FF = a2 &&& 0x07FF) :
    read_ram (write_ram ram a1 d) a2 = d
    ∧ ∀ a : Nat, a &&& (RAM_SIZE - 1) < RAM_SIZE := by
  constructor
  · simp [read_ram, write_ram, RAM_SIZE, halias]
  · intro a
    have hle : a &&& (RAM_SIZE - 1) ≤ RAM_SIZE - 1 := Nat.and_le_right
    simp only [RAM_SIZE] at hle ⊢
    omega

/-- Witness for C8: 0x0801 and 0x1001 both mask to index 1; a write of
0xAB through the first is read back through the second. -/
theorem ram_mirroring_witness :
    read_ram (write_ram (fun _ => 0) 0x0801 0xAB) 0x1001 = 0xAB
    ∧ 0xFFFF &&& (RAM_SIZE - 1) < RAM_SIZE :=
  ⟨(ram_mirroring (fun _ => 0) 0x0801 0x1001 0xAB (by decide) (by decide) (by decide)).1,
   (ram_mirroring (fun _ => 0) 0x0801 0x1001 0xAB (by decide) (by decide) (by decide)).2 0xFFFF⟩

/-! ## Clock orchestrator (lib.rs, Emulator, lines 21-131)

The Emu record carries the fields of the Emulator struct of lib.rs. The
CPU, PPU and cartridge are external to the verified core; modelled from the
spec: a Collab record packages their step functions as the narrow contracts
of spec section 6 -- the PPU one-tick step and the query-and-consume
vblank/NMI take (returning the flag and the successor state), the CPU
one-step clock, NMI entry, IRQ entry and reset, the CPU idle query (the
cycles field read by lib.rs), and the cartridge's query-and-consume mapper
IRQ take. Per spec sections 4.3 and 8.7, CPU and PPU reset and steps act
on their own internal state. -/

structure Collab (P C K : Type) where
  ppuClock : P → P
  takeVblankNmi : P → Bool × P
  ppuReset : P → P
  cpuClock : C → C
  cpuNmi : C → C
  cpuIrq : C → C
  cpuReset : C → C
  cpuCycles : C → Nat
  takeIrq : K → Bool × K

/-- The Emulator struct of lib.rs lines 21-41, with the collaborator state
types abstract and the byte arrays as index maps. -/
structure Emu (P C K : Type) where
  cartridge : K
  cpu : C
  controller1 : Nat
  controller2 : Nat
  controller1_state : Bool
  controller2_state : Bool
  controller1_snapshot : Nat
  controller2_snapshot : Nat
  ram : Nat → Nat
  ppu : P
  name_tables : Nat → Nat
  clock_count : Nat

/-- Which branch of Emulator::clock ran on a tick: the NMI service, the IRQ
service, the plain CPU step of a due tick, or a tick that only clocked the
PPU. -/
inductive ClockEvent where
  | servicedNMI
  | servicedIRQ
  | normalStep
  | ppuOnly
deriving DecidableEq

/-- True when the tick ran the CPU-advance branch (clock_count was
divisible by 3 on entry). -/
def ClockEvent.cpuAdvanced : ClockEvent → Bool
  | .ppuOnly => false
  | _ => true

/-- Embeds Emulator::clock (lib.rs 68-97): the PPU is clocked first; when
the phase counter is divisible by 3 the counter is set to 0 and the CPU
branch runs -- NMI service when the CPU is idle and the consumed vblank
flag is set, else IRQ service when the CPU is idle and the consumed mapper
IRQ flag is set (the take is short-circuited away whenever the NMI branch
fires, per Rust's lazy conditional chain), else a plain CPU step; finally
the counter is incremented with u8 wrapping. Returns the successor state
and the branch taken. -/
def Emu.clock {P C K : Type} (cb : Collab P C K) (s : Emu P C K) :
    Emu P C K × ClockEvent :=
  let p1 := cb.ppuClock s.ppu
  let r :=
    if s.clock_count % 3 == 0 then
      if cb.cpuCycles s.cpu == 0 then
        let tv := cb.takeVblankNmi p1
        if tv.1 then
          ({ s with
              ppu := tv.2
              cpu := cb.cpuClock (cb.cpuNmi s.cpu)
              clock_count := 0 },
            ClockEvent.servicedNMI)
        else
          let ti := cb.takeIrq s.cartridge
          if ti.1 then
            ({ s with
                ppu := tv.2
                cartridge := ti.2
                cpu := cb.cpuClock (cb.cpuIrq s.cpu)
                clock_count := 0 },
              ClockEvent.servicedIRQ)
          else
            ({ s with
                ppu := tv.2
                cartridge := ti.2
                cpu := cb.cpuClock s.cpu
                clock_count := 0 },
              ClockEvent.normalStep)
      else
        ({ s with
            ppu := p1
            cpu := cb.cpuClock s.cpu
            clock_count := 0 },
          ClockEvent.normalStep)
    else
      ({ s with ppu := p1 }, ClockEvent.ppuOnly)
  ({ r.1 with clock_count := (r.1.clock_count + 1) % 256 }, r.2)

/-- Embeds Emulator::reset (lib.rs 107-112): the CPU and PPU are
re-initialized through their own reset contracts and the phase counter is
cleared; nothing else is touched. -/
def Emu.reset {P C K : Type} (cb : Collab P C K) (s : Emu P C K) : Emu P C K :=
  { s with cpu := cb.cpuReset s.cpu, ppu := cb.ppuReset s.ppu, clock_count := 0 }

/-- State after n ticks from s. -/
def Emu.trace {P C K : Type} (cb : Collab P C K) (s : Emu P C K) : Nat → Emu P C K
  | 0 => s
  | n + 1 => (Emu.clock cb (Emu.trace cb s n)).1

/-- The branch taken by the (0-indexed) n-th tick from s. -/
def Emu.tickEvent {P C K : Type} (cb : Collab P C K) (s : Emu P C K) (n : Nat) : ClockEvent :=
  (Emu.clock cb (Emu.trace cb s n)).2

/-- One tick maps the phase counter to 1 on a due tick (reset to 0, then
incremented) and to the wrapped successor otherwise. -/
theorem clock_count_step {P C K : Type} (cb : Collab P C K) (s : Emu P C K) :
    (Emu.clock cb s).1.clock_count =
      if s.clock_count % 3 == 0 then 1 else (s.clock_count + 1) % 256 := by
  unfold Emu.clock
  cases hdue : (s.clock_count % 3 == 0) <;>
    cases hcy : (cb.cpuCycles s.cpu == 0) <;>
      cases hnmi : (cb.takeVblankNmi (cb.ppuClock s.ppu)).1 <;>
        cases hirq : (cb.takeIrq s.cartridge).1 <;>
          simp [hdue, hcy, hnmi, hirq]

/-- A tick runs the CPU-advance branch exactly when the phase counter is
divisible by 3 on entry, whatever the collaborators do. -/
theorem clock_event_due {P C K : Type} (cb : Collab P C K) (s : Emu P C K) :
    (Emu.clock cb s).2.cpuAdvanced = (s.clock_count % 3 == 0) := by
  unfold Emu.clock
  cases hdue : (s.clock_count % 3 == 0) <;>
    cases hcy : (cb.cpuCycles s.cpu == 0) <;>
      cases hnmi : (cb.takeVblankNmi (cb.ppuClock s.ppu)).1 <;>
        cases hirq : (cb.takeIrq s.cartridge).1 <;>
          simp [hdue, hcy, hnmi, hirq, ClockEvent.cpuAdvanced]

/-- From a zero phase counter, the counter after n + 1 ticks is
n mod 3 + 1. -/
theorem trace_clock_count {P C K : Type} (cb : Collab P C K) (s : Emu P C K)
    (h : s.clock_count = 0) :
    ∀ n : Nat, (Emu.trace cb s (n + 1)).clock_count = n % 3 + 1 := by
  intro n
  induction n with
  | zero => simp [Emu.trace, clock_count_step, h]
  | succ k ih =>
      have step : Emu.trace cb s (k + 2) = (Emu.clock cb (Emu.trace cb s (k + 1))).1 := rfl
      rw [step, clock_count_step, ih]
      have h3 : k % 3 = 0 ∨ k % 3 = 1 ∨ k % 3 = 2 := by omega
      rcases h3 with h | h | h <;> simp [h] <;> omega

/-- From a zero phase counter, the k-th tick is a CPU-advance tick exactly
when k is divisible by 3. -/
theorem clock_cadence_aux {P C K : Type} (cb : Collab P C K) (s : Emu P C K)
    (h : s.clock_count = 0) :
    ∀ k : Nat, ((Emu.tickEvent cb s k).cpuAdvanced = true ↔ k % 3 = 0) := by
  intro k
  unfold Emu.tickEvent
  rw [clock_event_due]
  cases k with
  | zero => simp [Emu.trace, h]
  | succ n =>
      rw [trace_clock_count cb s h n]
      simp only [beq_iff_eq]
      constructor <;> intro <;> omega

/-- Counting collaborators: the PPU state counts its one-tick steps, the
CPU state counts its clock calls and is always idle, and no interrupt is
ever pending. -/
def countCb : Collab Nat Nat Unit where
  ppuClock := fun p => p + 1
  takeVblankNmi := fun p => (false, p)
  ppuReset := fun p => p
  cpuClock := fun c => c + 1
  cpuNmi := fun c => c
  cpuIrq := fun c => c
  cpuReset := fun c => c
  cpuCycles := fun _ => 0
  takeIrq := fun k => (false, k)

/-- A freshly constructed emulator state for the counting collaborators
(all counters and memories zero, phase counter zero as after reset). -/
def countEmu : Emu Nat Nat Unit where
  cartridge := ()
  cpu := 0
  controller1 := 0
  controller2 := 0
  controller1_state := false
  controller2_state := false
  controller1_snapshot := 0
  controller2_snapshot := 0
  ram := fun _ => 0
  ppu := 0
  name_tables := fun _ => 0
  clock_count := 0

/-- Under the counting collaborators, each tick clocks the PPU exactly once
and clocks the CPU exactly on due ticks. -/
theorem countClock (e : Emu Nat Nat Unit) :
    (Emu.clock countCb e).1.ppu = e.ppu + 1
    ∧ (Emu.clock countCb e).1.cpu = (if e.clock_count % 3 = 0 then e.cpu + 1 else e.cpu) := by
  unfold Emu.clock countCb
  by_cases hdue : e.clock_count % 3 = 0 <;> simp [hdue]

/-- After n ticks the PPU has been advanced exactly n times and the CPU
exactly once per tick 0, 3, 6, ... below n. -/
theorem count_trace : ∀ n : Nat,
    (Emu.trace countCb countEmu n).ppu = n
    ∧ (Emu.trace countCb countEmu n).cpu = (n + 2) / 3 := by
  intro n
  induction n with
  | zero => exact ⟨rfl, rfl⟩
  | succ k ih =>
      have step : Emu.trace countCb countEmu (k + 1)
          = (Emu.clock countCb (Emu.trace countCb countEmu k)).1 := rfl
      have hc := countClock (Emu.trace countCb countEmu k)
      refine ⟨by rw [step, hc.1, ih.1], ?_⟩
      rw [step, hc.2, ih.2]
      cases k with
      | zero =>
          have hcc : (Emu.trace countCb countEmu 0).clock_count = 0 := rfl
          rw [hcc]
          norm_num
      | succ j =>
          rw [trace_clock_count countCb countEmu rfl j]
          by_cases hb : (j % 3 + 1) % 3 = 0
          · rw [if_pos hb]; omega
          · rw [if_neg hb]; omega

/-- C2: from a freshly constructed or freshly reset emulator (phase counter
zero), for any collaborators, the k-th tick runs the CPU-advance branch
exactly when k is a multiple of 3 (so for any N, in particular N at least
1000 and across the u8 wrap boundary at tick 256, the CPU advances on ticks
0, 3, 6, ... and no others); and under the counting collaborators the PPU
is advanced exactly once on every tick and the CPU-advance count after n
ticks is the number of multiples of 3 below n. -/
theorem clock_cadence {P C K : Type} (cb : Collab P C K) (s : Emu P C K)
    (h : s.clock_count = 0) :
    (∀ k : Nat, ((Emu.tickEvent cb s k).cpuAdvanced = true ↔ k % 3 = 0))
    ∧ (∀ n : Nat, (Emu.trace countCb countEmu n).ppu = n
        ∧ (Emu.trace countCb countEmu n).cpu = (n + 2) / 3) :=
  ⟨clock_cadence_aux cb s h, count_trace⟩

/-- Witness for C2: tick 999 is a CPU-advance tick and after 1000 ticks
the PPU has stepped exactly 1000 times. -/
theorem clock_cadence_witness :
    ((Emu.tickEvent countCb countEmu 999).cpuAdvanced = true ↔ 999 % 3 = 0)
    ∧ (Emu.trace countCb countEmu 1000).ppu = 1000 :=
  ⟨(clock_cadence countCb countEmu rfl).1 999,
   ((clock_cadence countCb countEmu rfl).2 1000).1⟩

/-- C5: on a due tick with the CPU idle and both the vblank/NMI condition
and the mapper IRQ condition pending, the tick services the NMI (the CPU
performs the NMI entry and one step), the cartridge state -- holding the
IRQ-pending condition -- is left untouched (the IRQ take is never called,
so the condition is not consumed), and on any later due tick with the CPU
idle, no NMI pending and the IRQ condition still pending, the IRQ is
serviced. -/
theorem nmi_priority {P C K : Type} (cb : Collab P C K) (s : Emu P C K)
    (hdue : s.clock_count % 3 = 0)
    (hidle : cb.cpuCycles s.cpu = 0)
    (hnmi : (cb.takeVblankNmi (cb.ppuClock s.ppu)).1 = true)
    (hirq : (cb.takeIrq s.cartridge).1 = true) :
    (Emu.clock cb s).2 = ClockEvent.servicedNMI
    ∧ (Emu.clock cb s).1.cpu = cb.cpuClock (cb.cpuNmi s.cpu)
    ∧ (Emu.clock cb s).1.cartridge = s.cartridge
    ∧ ∀ s2 : Emu P C K, s2.clock_count % 3 = 0 → cb.cpuCycles s2.cpu = 0 →
        (cb.takeVblankNmi (cb.ppuClock s2.ppu)).1 = false →
        (cb.takeIrq s2.cartridge).1 = true →
        (Emu.clock cb s2).2 = ClockEvent.servicedIRQ := by
  refine ⟨?_, ?_, ?_, ?_⟩
  · unfold Emu.clock; simp [hdue, hidle, hnmi]
  · unfold Emu.clock; simp [hdue, hidle, hnmi]
  · unfold Emu.clock; simp [hdue, hidle, hnmi]
  · intro s2 h1 h2 h3 h4
    unfold Emu.clock; simp [h1, h2, h3, h4]

/-- Collaborators for the C5 witness: Bool flags stand for the vblank and
mapper IRQ conditions, and their takes read and clear the flag. -/
def nmiCb : Collab Bool Unit Bool where
  ppuClock := fun p => p
  takeVblankNmi := fun p => (p, false)
  ppuReset := fun p => p
  cpuClock := fun c => c
  cpuNmi := fun c => c
  cpuIrq := fun c => c
  cpuReset := fun c => c
  cpuCycles := fun _ => 0
  takeIrq := fun k => (k, false)

/-- Emulator state for the C5 witness: both interrupt conditions pending,
CPU idle, due tick. -/
def nmiEmu : Emu Bool Unit Bool where
  cartridge := true
  cpu := ()
  controller1 := 0
  controller2 := 0
  controller1_state := false
  controller2_state := false
  controller1_snapshot := 0
  controller2_snapshot := 0
  ram := fun _ => 0
  ppu := true
  name_tables := fun _ => 0
  clock_count := 0

/-- Witness for C5: with both conditions pending on a due idle tick, the
NMI is serviced and the cartridge keeps its pending IRQ flag. -/
theorem nmi_priority_witness :
    (Emu.clock nmiCb nmiEmu).2 = ClockEvent.servicedNMI
    ∧ (Emu.clock nmiCb nmiEmu).1.cpu = nmiCb.cpuClock (nmiCb.cpuNmi nmiEmu.cpu)
    ∧ (Emu.clock nmiCb nmiEmu).1.cartridge = nmiEmu.cartridge
    ∧ ∀ s2 : Emu Bool Unit Bool, s2.clock_count % 3 = 0 → nmiCb.cpuCycles s2.cpu = 0 →
        (nmiCb.takeVblankNmi (nmiCb.ppuClock s2.ppu)).1 = false →
        (nmiCb.takeIrq s2.cartridge).1 = true →
        (Emu.clock nmiCb s2).2 = ClockEvent.servicedIRQ :=
  nmi_priority nmiCb nmiEmu rfl rfl rfl rfl

/-- C9: reset re-initializes the CPU and PPU through their own reset
contracts and zeroes the phase counter, and leaves work RAM, video RAM,
both controller ports (live bytes, strobe flags, snapshots) and the
cartridge exactly unchanged. -/
theorem reset_retention {P C K : Type} (cb : Collab P C K) (s : Emu P C K) :
    (Emu.reset cb s).ram = s.ram
    ∧ (Emu.reset cb s).name_tables = s.name_tables
    ∧ (Emu.reset cb s).controller1 = s.controller1
    ∧ (Emu.reset cb s).controller2 = s.controller2
    ∧ (Emu.reset cb s).controller1_state = s.controller1_state
    ∧ (Emu.reset cb s).controller2_state = s.controller2_state
    ∧ (Emu.reset cb s).controller1_snapshot = s.controller1_snapshot
    ∧ (Emu.reset cb s).controller2_snapshot = s.controller2_snapshot
    ∧ (Emu.reset cb s).cartridge = s.cartridge
    ∧ (Emu.reset cb s).clock_count = 0
    ∧ (Emu.reset cb s).cpu = cb.cpuReset s.cpu
    ∧ (Emu.reset cb s).ppu = cb.ppuReset s.ppu :=
  ⟨rfl, rfl, rfl, rfl, rfl, rfl, rfl, rfl, rfl, rfl, rfl, rfl⟩

/-- Witness for C9: reset of the concrete counting emulator keeps its RAM
map and zeroes the phase counter. -/
theorem reset_retention_witness :
    (Emu.reset countCb countEmu).ram = countEmu.ram
    ∧ (Emu.reset countCb countEmu).clock_count = 0 :=
  ⟨(reset_retention countCb countEmu).1,
   (reset_retention countCb countEmu).2.2.2.2.2.2.2.2.2.1⟩

/-- C10: from a zero phase counter (construction or any reset), after every
completed tick the counter lies in 1..3 -- the reset-to-0 inside the
CPU-advance branch keeps it from growing -- and before every tick it is
below 255, so the u8 wrapping increment never actually wraps. -/
theorem clock_count_bounded {P C K : Type} (cb : Collab P C K) (s : Emu P C K)
    (h : s.clock_count = 0) (n : Nat) :
    1 ≤ (Emu.trace cb s (n + 1)).clock_count
    ∧ (Emu.trace cb s (n + 1)).clock_count ≤ 3
    ∧ (Emu.trace cb s n).clock_count < 255 := by
  have h1 := trace_clock_count cb s h n
  refine ⟨by omega, by omega, ?_⟩
  cases n with
  | zero =>
      have hcc : Emu.trace cb s 0 = s := rfl
      rw [hcc, h]
      omega
  | succ k =>
      rw [trace_clock_count cb s h k]
      omega

/-- Witness for C10: the bounds at the u8 wrap boundary, ticks 255 and
256. -/
theorem clock_count_bounded_witness :
    1 ≤ (Emu.trace countCb countEmu 256).clock_count
    ∧ (Emu.trace countCb countEmu 256).clock_count ≤ 3
    ∧ (Emu.trace countCb countEmu 255).clock_count < 255 :=
  clock_count_bounded countCb countEmu rfl 255
